import Mathlib

/-!
Shallow embedding of the tolerant CSV-ingestion pipeline of `model_training.py`
(`find_best_csv`, `_try_read`, `load_data`) from the DeepAir repository.

Python strings are modelled as Lean `String`s; where character-level work is
needed (`str.split`, `str.strip`, `str.lower`, substring tests) we operate on
`String.data : List Char` with structurally recursive functions, so that every
definition evaluates inside the kernel.  Pandas calls (`pd.read_csv`) are
external-library boundaries: their outcome on a given file is part of the
modelled file (`SrcFile`), while all logic belonging to the repository itself
(the fallback ladder, the modal-column-count cleaner, column resolution,
numeric coercion, file selection) is translated from the source line by line.
-/

namespace DeepAir

/-! ### Character-level string helpers (Python `str` operations) -/

/-- ASCII lower-casing of one character, as Python `str.lower` acts on ASCII. -/
def pyLowerChar (c : Char) : Char :=
  if 'A' ≤ c ∧ c ≤ 'Z' then Char.ofNat (c.toNat + 32) else c

/-- Python `str.lower` (ASCII fragment). -/
def pyLower (s : String) : String := ⟨s.data.map pyLowerChar⟩

/-- The six characters Python `str.strip()` removes (ASCII whitespace). -/
def isPySpace (c : Char) : Bool :=
  c == ' ' || c == '\t' || c == '\n' || c == '\r' || c == '\x0b' || c == '\x0c'

/-- Python `str.strip()` on the character list. -/
def stripChars (l : List Char) : List Char :=
  ((l.dropWhile isPySpace).reverse.dropWhile isPySpace).reverse

/-- Python `str.strip()`. -/
def pyStrip (s : String) : String := ⟨stripChars s.data⟩

/-- `leadsWith pat s`: the list `s` begins with `pat`. -/
def leadsWith : List Char → List Char → Bool
  | [], _ => true
  | _ :: _, [] => false
  | p :: ps, c :: cs => p == c && leadsWith ps cs

/-- `hasSeg pat s`: `pat` occurs as a contiguous segment of `s`
(Python `pat in s`). -/
def hasSeg (pat : List Char) : List Char → Bool
  | [] => leadsWith pat []
  | c :: rest => leadsWith pat (c :: rest) || hasSeg pat rest

/-- Python `line.split(sep)` for a one-character separator: split at every
occurrence, never merging; `"".split(sep) = [""]`. -/
def pySplit (sep : Char) : List Char → List (List Char)
  | [] => [[]]
  | c :: rest =>
    let r := pySplit sep rest
    if c == sep then [] :: r
    else
      match r with
      | f :: fs => (c :: f) :: fs
      | [] => [[c]]

/-! ### Errors, tables, files, filesystem -/

/-- The plain Python exceptions arising inside the loader (the values that
can be bound to `last_exc`, and the non-wrapping raises of `load_data`). -/
inductive PyExc where
  | fileNotFoundError (msg : String)
  | valueError (msg : String)
  | emptyDataError (msg : String)
  | parseError (msg : String)
  | keyError (msg : String)
  | nameError (msg : String)
  | runtimeError (msg : String)
deriving DecidableEq

/-- An exception escaping the loader: either a plain exception, or the tagged
`RuntimeError(f"Failed to parse file {path}. Last error: {last_exc}")` raised
at the very end of `_try_read`, which interpolates the exception of the last
failed strategy into its message — recorded structurally here. -/
inductive PyErr where
  | exc (e : PyExc)
  | wrapped (msg : String) (lastExc : PyExc)
deriving DecidableEq

/-- One column of a parsed dataframe: its header label, its pandas dtype
summarised as "numeric or not" (`pd.api.types.is_numeric_dtype`), and its
cells, each recorded as the outcome `pd.to_numeric(·, errors="coerce")`
would give on it: `some q` when the field coerces to the number `q`,
`none` when coercion yields NaN. -/
structure Column where
  name : String
  numericDtype : Bool
  cells : List (Option Rat)
deriving DecidableEq

/-- A parsed dataframe: an ordered list of columns. -/
structure Table where
  cols : List Column
deriving DecidableEq

/-- A file on disk, as the loader can observe it: its physical lines
(without trailing newlines, which never change a field count), together
with the behaviour of the external pandas parser on it: `s1 … s6` are the
outcomes of the six `pd.read_csv` strategy calls of `_try_read`, and
`readCleaned rows sep` is the outcome of `pd.read_csv` on the in-memory
CSV built from `rows` with separator `sep` in the modal-cleaning stage. -/
structure SrcFile where
  lines : List (List Char)
  s1 : Except PyExc Table
  s2 : Except PyExc Table
  s3 : Except PyExc Table
  s4 : Except PyExc Table
  s5 : Except PyExc Table
  s6 : Except PyExc Table
  readCleaned : List (List Char) → Char → Except PyExc Table

/-- A path, split as `os.path.join(dir, name)` builds it. -/
structure FPath where
  dir : String
  name : String
deriving DecidableEq

/-- `os.path.join`. -/
def pathStr (p : FPath) : String := p.dir ++ "/" ++ p.name

/-- The filesystem a call observes: the existing files with their sizes, in
directory-scan (`glob`) order, and each file's content/parser behaviour. -/
structure FileSystem where
  entries : List (FPath × Nat)
  content : FPath → SrcFile

/-- `os.path.getsize`, `none` when the file does not exist. -/
def fsSize (fs : FileSystem) (p : FPath) : Option Nat :=
  (fs.entries.find? (fun e => decide (e.1 = p))).map (·.2)

/-- `os.path.exists`. -/
def fsExists (fs : FileSystem) (p : FPath) : Bool := (fsSize fs p).isSome

/-- `os.path.getsize` with default 0 (only used on existing files). -/
def getsize (fs : FileSystem) (p : FPath) : Nat := (fsSize fs p).getD 0

/-! ### `find_best_csv` (source lines 12–30) -/

/-- `BASE_DIR = os.path.dirname(os.path.abspath(__file__))`: the module's own
directory, fixed at import time (an arbitrary but fixed absolute path). -/
def BASE_DIR : String := "/home/pi/DeepAir"

/-- `PREFERRED_FILENAME = "live_air_quality.csv"`. -/
def PREFERRED_FILENAME : String := "live_air_quality.csv"

/-- `DATA_FILE = os.path.join(BASE_DIR, "air_quality_data.csv")`. -/
def DATA_FILE : FPath := ⟨BASE_DIR, "air_quality_data.csv"⟩

/-- `name` ends with `".csv"`. -/
def endsCsv (name : String) : Bool := leadsWith ".csv".data.reverse name.data.reverse

/-- `name` starts with a dot (glob skips hidden files). -/
def hiddenName (name : String) : Bool := leadsWith ['.'] name.data

/-- `glob(os.path.join(base_dir, "*.csv"))`: the existing files of `base_dir`
whose name ends in `.csv` (and is not hidden), in scan order. -/
def globCsv (fs : FileSystem) (base_dir : String) : List FPath :=
  (fs.entries.filter
    (fun e => decide (e.1.dir = base_dir) && endsCsv e.1.name && !hiddenName e.1.name)).map (·.1)

/-- Step (c) of `find_best_csv` (source lines 23–30): glob the directory for
`*.csv`, fail if none, fail if all empty, else return the first file of
maximal size — Python sorts descending by size with a stable sort and takes
the head, which is exactly the earliest maximum. -/
def globStage (fs : FileSystem) (base_dir : String) : Except PyErr FPath :=
  if globCsv fs base_dir = [] then
    .error (.exc (.fileNotFoundError ("No CSV files found in " ++ base_dir)))
  else
    match (globCsv fs base_dir).filter (fun p => decide (0 < getsize fs p)) with
    | [] => .error (.exc (.valueError ("All CSV files in " ++ base_dir ++ " are empty.")))
    | q :: rest =>
      .ok (rest.foldl (fun best p => if getsize fs best < getsize fs p then p else best) q)

/-- `find_best_csv(base_dir, preferred)` (source lines 17–30).  Note that the
fallback check of step (b) tests the module-level constant `DATA_FILE`, not a
file inside `base_dir`. -/
def find_best_csv (fs : FileSystem) (base_dir : String) (preferred : String) :
    Except PyErr FPath :=
  let pref : FPath := ⟨base_dir, preferred⟩
  if fsExists fs pref && decide (0 < getsize fs pref) then .ok pref
  else if fsExists fs DATA_FILE && decide (0 < getsize fs DATA_FILE) then .ok DATA_FILE
  else globStage fs base_dir

/-! ### `_try_read` (source lines 33–131) -/

/-- Body of the strategy-1–4 loop (source lines 47–55): a `pd.read_csv` call
whose result, when it has zero columns, is turned into a raised
`EmptyDataError` — so a zero-column table updates `last_exc` exactly like an
exception. -/
def strictAttempt (r : Except PyExc Table) (label : String) : Except PyExc Table :=
  match r with
  | .ok t =>
    if t.cols.length == 0 then
      .error (.emptyDataError ("No columns parsed (attempt: " ++ label ++ ")"))
    else .ok t
  | .error e => .error e

/-- `len(ln.split(sep))`. -/
def fieldCount (sep : Char) (ln : List Char) : Nat := (pySplit sep ln).length

/-- One step of building the Python `counts` dict: insertion-ordered
association list, incrementing the entry for `k` or appending it. -/
def bump : List (Nat × Nat) → Nat → List (Nat × Nat)
  | [], k => [(k, 1)]
  | (k', n) :: rest, k =>
    if k' == k then (k', n + 1) :: rest else (k', n) :: bump rest k

/-- The `counts` dict of `modal_count`, in Python dict insertion order. -/
def tally (ks : List Nat) : List (Nat × Nat) := ks.foldl bump []

/-- Python `max(counts.items(), key=lambda kv: kv[1])`: the first item of
maximal second component (Python `max` keeps the earlier item on ties). -/
def maxBySnd (l : List (Nat × Nat)) : Nat × Nat :=
  match l with
  | [] => (0, 0)
  | p :: rest => rest.foldl (fun best q => if best.2 < q.2 then q else best) p

/-- The inner `modal_count(lines, sep)` of `_try_read` (source lines 89–96):
the `(col_count, frequency)` pair of the most frequent field count. -/
def modal_count (lines : List (List Char)) (sep : Char) : Nat × Nat :=
  maxBySnd (tally (lines.map (fieldCount sep)))

/-- Delimiter choice of the modal stage (source line 102):
`"," if comma_mode[1] >= semi_mode[1] else ";"`. -/
def chosenSep (sample : List (List Char)) : Char :=
  if (modal_count sample ';').2 ≤ (modal_count sample ',').2 then ',' else ';'

/-- Modal column count of the modal stage (source line 103). -/
def chosenModalCols (sample : List (List Char)) : Nat :=
  if (modal_count sample ';').2 ≤ (modal_count sample ',').2 then
    (modal_count sample ',').1
  else (modal_count sample ';').1

/-- The streaming pass of the modal stage (source lines 106–115): the lines
of the whole file whose field count under the chosen separator equals the
modal column count (`cleaned_rows`; `kept` is its length, `total` the length
of `lines`). -/
def cleanedRows (sample lines : List (List Char)) : List (List Char) :=
  lines.filter (fun ln => fieldCount (chosenSep sample) ln == chosenModalCols sample)

/-- Strategy 7, the modal-column-count cleaner (source lines 75–129), plus
the final `raise RuntimeError` (line 131).  `lastExc` is the `last_exc`
value after strategies 1–6 all failed.

Source bug, modelled faithfully: `sample_lines = [next(f) for _ in
range(2000)]` performs 2000 `next` calls; on a file with fewer than 2000
lines the raised `StopIteration` aborts the comprehension *before* the
assignment, the `except StopIteration: pass` arm discards the lines read so
far, and the subsequent `if sample_lines:` raises an uncaught
`NameError` — despite the comment "use all read lines". -/
def modalStage (path : String) (f : SrcFile) (_lastExc : PyExc) : Except PyErr Table :=
  if f.lines.length < 2000 then
    .error (.exc (.nameError "name 'sample_lines' is not defined"))
  else
    let sample := f.lines.take 2000
    let kept := cleanedRows sample f.lines
    if kept.length == 0 then
      .error (.wrapped ("Failed to parse file " ++ path ++ ".")
        (.runtimeError "Modal-cleaner found 0 well-formed rows."))
    else
      match f.readCleaned kept (chosenSep sample) with
      | .ok t =>
        if t.cols.length == 0 then
          .error (.wrapped ("Failed to parse file " ++ path ++ ".")
            (.emptyDataError "Modal-cleaner produced 0 columns."))
        else .ok t
      | .error e => .error (.wrapped ("Failed to parse file " ++ path ++ ".") e)

/-- Strategies 5–7 (source lines 57–131), entered with the `last_exc` left by
the strategy-1–4 loop.  Strategies 5 and 6 return on a table with at least
one column; a zero-column table falls through *without* touching `last_exc`,
an exception replaces it. -/
def afterStrict (path : String) (f : SrcFile) (lastExc : PyExc) : Except PyErr Table :=
  let step5 : Option Table × PyExc :=
    match f.s5 with
    | .ok t => (if 0 < t.cols.length then some t else none, lastExc)
    | .error e => (none, e)
  match step5.1 with
  | some t => .ok t
  | none =>
    let step6 : Option Table × PyExc :=
      match f.s6 with
      | .ok t => (if 0 < t.cols.length then some t else none, step5.2)
      | .error e => (none, e)
    match step6.1 with
    | some t => .ok t
    | none => modalStage path f step6.2

/-- `_try_read(path)` (source lines 33–131): the ordered fallback ladder.
Strategies 1–4 are the `attempts` loop; each failure overwrites `last_exc`,
so only the last one is passed on. -/
def _try_read (path : String) (f : SrcFile) : Except PyErr Table :=
  match strictAttempt f.s1 "utf-8 (default engine)" with
  | .ok t => .ok t
  | .error _ =>
  match strictAttempt f.s2 "utf-8-sig (BOM)" with
  | .ok t => .ok t
  | .error _ =>
  match strictAttempt f.s3 "latin1" with
  | .ok t => .ok t
  | .error _ =>
  match strictAttempt f.s4 "python engine, auto-sep" with
  | .ok t => .ok t
  | .error e4 => afterStrict path f e4

/-- The outcomes of the six pandas-backed strategies of a file, in the order
`_try_read` attempts them. -/
def stratList (f : SrcFile) : List (Except PyExc Table) :=
  [f.s1, f.s2, f.s3, f.s4, f.s5, f.s6]

/-- A pandas-backed strategy "yields": it returns (rather than raises) a
table with at least one column. -/
def stratYields (r : Except PyExc Table) : Bool :=
  match r with
  | .ok t => decide (0 < t.cols.length)
  | .error _ => false

/-- The default used for out-of-range strategy indexing in statements. -/
def stratDefault : Except PyExc Table := .error (.parseError "out of range")

/-! ### `load_data` (source lines 134–193) -/

/-- `df.columns = [str(c).strip() for c in df.columns]` (source line 146). -/
def strippedTable (t : Table) : Table :=
  ⟨t.cols.map (fun c => { c with name := pyStrip c.name })⟩

/-- The headers of a table (`df.columns`), in column order. -/
def headersOf (t : Table) : List String := t.cols.map (·.name)

/-- The `candidates` alias list (source lines 148–152), in order. -/
def candidates : List String :=
  ["pm25", "pm_25", "pm2_5", "pm2.5", "pm2_5(ug/m3)", "pm2.5(ug/m3)",
   "pm2_5_ug_m3", "pm25_ugm3", "pm2_5_ugm3", "pm_2_5", "pm25 (ug/m3)",
   "pm2.5_ugm3", "pm2_5_ug/m3"]

/-- `col_map = {col.lower(): col for col in df.columns}` followed by a lookup:
a dict comprehension lets a later column overwrite an earlier one with the
same lower-cased name, so the lookup returns the *last* matching column. -/
def colMapGet (headers : List String) (key : String) : Option String :=
  (headers.filter (fun h => pyLower h == key)).getLast?

/-- Rule 1 (source lines 154–158): first candidate alias whose lower-casing
is a key of `col_map`, resolved to the stored original column name. -/
def aliasStage (headers : List String) : Option String :=
  candidates.findSome? (fun cand => colMapGet headers (pyLower cand))

/-- The substring test of rule 2 (source line 163) on one column name. -/
def pmSubstrMatch (col : String) : Bool :=
  let lc := (pyLower col).data
  hasSeg "pm2".data lc || hasSeg "pm 2".data lc || hasSeg "pm2.5".data lc ||
    leadsWith "pm25".data (lc.filter (fun c => !(c == '.' || c == '_')))

/-- Rule 2 (source lines 160–165): first column, in table order, passing the
substring heuristics. -/
def substrStage (headers : List String) : Option String :=
  headers.find? pmSubstrMatch

/-- Rule 3 (source lines 167–171): the unique numeric-dtyped column, if there
is exactly one. -/
def numericStage (t : Table) : Option String :=
  match t.cols.filter (·.numericDtype) with
  | [c] => some c.name
  | _ => none

/-- Rule 4 (source lines 172–176): the generic fallback names, `value` then
`measurement`, looked up case-insensitively through `col_map`. -/
def genericStage (headers : List String) : Option String :=
  match colMapGet headers "value" with
  | some c => some c
  | none => colMapGet headers "measurement"

/-- The `KeyError` message of source lines 179–183, listing every available
column name. -/
def noColumnMsg (headers : List String) : String :=
  "Could not detect a pm2.5 column automatically. Available columns: " ++
    String.intercalate ", " headers ++
    "\nPlease rename the pm2.5 column to one of: pm25, pm2_5, pm2.5, pm_25, etc."

/-- Column resolution on the (already header-stripped) table (source lines
148–183): the four rules in order, else a loud `KeyError`. -/
def selectTargetColumn (t : Table) : Except PyErr String :=
  match aliasStage (headersOf t) with
  | some c => .ok c
  | none =>
  match substrStage (headersOf t) with
  | some c => .ok c
  | none =>
  match numericStage t with
  | some c => .ok c
  | none =>
  match genericStage (headersOf t) with
  | some c => .ok c
  | none => .error (.exc (.keyError (noColumnMsg (headersOf t))))

/-- Header trimming followed by column resolution: the column-resolution
portion of `load_data` as a whole (source lines 146–183). -/
def resolveColumn (t : Table) : Except PyErr String :=
  selectTargetColumn (strippedTable t)

/-- `df[found_col]` (source line 185): the first column carrying the name. -/
def projectColumn (t : Table) (name : String) : Option Column :=
  t.cols.find? (fun c => c.name == name)

/-- Source lines 185–193: `pd.to_numeric(…, errors="coerce")` per field
(already recorded in the cells), `dropna()` (drop the failures — nothing is
substituted), and the emptiness check. -/
def coerceNumeric (c : Column) : Except PyErr (List Rat) :=
  let series := c.cells.filterMap id
  if series.isEmpty then
    .error (.exc (.valueError
      ("No numeric values found in detected pm25 column '" ++ c.name ++ "' after coercion.")))
  else .ok series

/-- The body of `load_data` once a path is fixed (source lines 138–193):
existence and emptiness checks, the parse ladder, header stripping, column
resolution, projection, coercion. -/
def loadFromPath (fs : FileSystem) (p : FPath) : Except PyErr (List Rat) :=
  if fsExists fs p then
    if getsize fs p == 0 then
      .error (.exc (.valueError ("Data file exists but is empty: " ++ pathStr p)))
    else
      match _try_read (pathStr p) (fs.content p) with
      | .error e => .error e
      | .ok df =>
        match selectTargetColumn (strippedTable df) with
        | .error e => .error e
        | .ok name =>
          match projectColumn (strippedTable df) name with
          | some c => coerceNumeric c
          | none =>
            -- unreachable: a resolved name is always one of the table's columns
            .error (.exc (.keyError name))
  else .error (.exc (.fileNotFoundError ("Data file not found: " ++ pathStr p)))

/-- `load_data(path)` (source lines 134–193).  `path? = none` is Python's
`path=None` default, routed through `find_best_csv()` (whose exception
propagates). -/
def load_data (fs : FileSystem) (path? : Option FPath) : Except PyErr (List Rat) :=
  match path? with
  | some p => loadFromPath fs p
  | none =>
    match find_best_csv fs BASE_DIR PREFERRED_FILENAME with
    | .error e => .error e
    | .ok p => loadFromPath fs p

/-- Two successive invocations of the loader against the same, unchanged
filesystem; the embedding threads no state between them, mirroring the
absence of any module-level mutable state in the source (its module level
holds only the constants of lines 12–14). -/
def loadDataTwice (fs : FileSystem) (path? : Option FPath) :
    Except PyErr (List Rat) × Except PyErr (List Rat) :=
  (load_data fs path?, load_data fs path?)

/-! ### Concrete inputs used by individual claims -/

/-- A placeholder file for filesystem entries whose content is irrelevant. -/
def dummyFile : SrcFile :=
  { lines := []
    s1 := .error (.parseError "x"), s2 := .error (.parseError "x")
    s3 := .error (.parseError "x"), s4 := .error (.parseError "x")
    s5 := .error (.parseError "x"), s6 := .error (.parseError "x")
    readCleaned := fun _ _ => .error (.parseError "x") }

/-- A line of five comma-separated fields (and no semicolon). -/
def row5 : List Char := "a,b,c,d,e".data

/-- A line of four comma-separated fields (truncated trailing field). -/
def row4 : List Char := "a,b,c,d".data

/-- The 80%/20% file of the spec's testable property 3: 2000 lines, 1600 of
them with five comma-fields, 400 with four. -/
def linesC1 : List (List Char) := List.replicate 1600 row5 ++ List.replicate 400 row4

/-- The (single-column) table pandas produces from the modal-cleaned rows of
`linesC1` under the chosen separator. -/
def tbl1 : Table := ⟨[⟨"whole_line", false, [some 1]⟩]⟩

/-- The 80%/20% file, with strategies 1–6 failing so that the modal cleaner
runs. -/
def fileC1 : SrcFile :=
  { lines := linesC1
    s1 := .error (.parseError "e1"), s2 := .error (.parseError "e2")
    s3 := .error (.parseError "e3"), s4 := .error (.parseError "e4")
    s5 := .error (.parseError "e5"), s6 := .error (.parseError "e6")
    readCleaned := fun _ _ => .ok tbl1 }

/-- A two-line file on which strategies 1–6 fail: the modal cleaner's
sampling comprehension exhausts it after two `next` calls. -/
def fileC3 : SrcFile :=
  { lines := ["a;b".data, "c;d".data]
    s1 := .error (.parseError "f1"), s2 := .error (.parseError "f2")
    s3 := .error (.parseError "f3"), s4 := .error (.parseError "f4")
    s5 := .error (.parseError "f5"), s6 := .error (.parseError "f6")
    readCleaned := fun _ _ => .error (.parseError "f7") }

/-- A table holding both a `pm25` and a `pm2_5` column. -/
def tblC8 : Table := ⟨[⟨"pm25", true, [some 1]⟩, ⟨"pm2_5", true, [some 2]⟩]⟩

/-- A well-formed comma-delimited UTF-8 file containing a column named
exactly `pm2_5` (next to a `pm25` column): strategy 1 parses it. -/
def fileC8 : SrcFile :=
  { lines := ["pm25,pm2_5".data, "1,2".data]
    s1 := .ok tblC8, s2 := .ok tblC8, s3 := .ok tblC8, s4 := .ok tblC8
    s5 := .ok tblC8, s6 := .ok tblC8
    readCleaned := fun _ _ => .ok tblC8 }

/-- A table whose only measurement column is named exactly `pm2_5`. -/
def tblC8w : Table := ⟨[⟨"timestamp", false, [none]⟩, ⟨"pm2_5", true, [some 12]⟩]⟩

/-- A well-formed comma-delimited UTF-8 file whose `pm2_5` column has no
earlier-alias competitor. -/
def fileC8w : SrcFile :=
  { lines := ["timestamp,pm2_5".data, "t0,12".data]
    s1 := .ok tblC8w, s2 := .ok tblC8w, s3 := .ok tblC8w, s4 := .ok tblC8w
    s5 := .ok tblC8w, s6 := .ok tblC8w
    readCleaned := fun _ _ => .ok tblC8w }

/-- A file whose strict strategy 1 fails but whose strategy 2 parses. -/
def fileC2 : SrcFile :=
  { lines := ["pm2_5".data, "1".data]
    s1 := .error (.parseError "g1"), s2 := .ok tblC8w, s3 := .ok tblC8w
    s4 := .ok tblC8w, s5 := .ok tblC8w, s6 := .ok tblC8w
    readCleaned := fun _ _ => .ok tblC8w }

/-- A concrete data-file path used by witnesses. -/
def pW : FPath := ⟨"/data", "live_air_quality.csv"⟩

/-- A one-file filesystem whose file parses on strategy 1 into `tblC8w`. -/
def fsW : FileSystem :=
  { entries := [(pW, 5)], content := fun _ => fileC8w }

/-- A filesystem whose preferred file is absent while the module-directory
fallback `DATA_FILE` exists and is non-empty. -/
def fsC10 : FileSystem :=
  { entries := [(DATA_FILE, 7), (⟨"/data", "other.csv"⟩, 3)], content := fun _ => dummyFile }

/-- A filesystem holding an existing but zero-byte data file. -/
def fsC7 : FileSystem :=
  { entries := [(pW, 0)], content := fun _ => dummyFile }

/-- A directory with only `.csv` files of different sizes, none preferred,
no fallback. -/
def fsC6 : FileSystem :=
  { entries := [(⟨"/data", "a.csv"⟩, 2), (⟨"/data", "b.csv"⟩, 9), (⟨"/data", "c.csv"⟩, 9)]
    content := fun _ => dummyFile }

/-! ### Helper lemmas -/

theorem bump_head (k n : Nat) (rest : List (Nat × Nat)) :
    bump ((k, n) :: rest) k = (k, n + 1) :: rest := by
  simp [bump]

theorem foldl_bump_head (n : Nat) (k : Nat) :
    ∀ (m : Nat) (rest : List (Nat × Nat)),
      (List.replicate n k).foldl bump ((k, m) :: rest) = (k, m + n) :: rest := by
  induction n with
  | zero => intro m rest; simp [List.foldl]
  | succ n ih =>
    intro m rest
    rw [List.replicate_succ, List.foldl_cons, bump_head, ih (m + 1) rest]
    ring_nf

theorem foldl_bump_frozen (l : List Nat) (k : Nat) (hk : ∀ x ∈ l, x ≠ k) :
    ∀ (m : Nat) (acc : List (Nat × Nat)),
      l.foldl bump ((k, m) :: acc) = (k, m) :: l.foldl bump acc := by
  induction l with
  | nil => intro m acc; simp [List.foldl]
  | cons x xs ih =>
    intro m acc
    have hx : (k == x) = false := by
      simp only [beq_eq_false_iff_ne]
      exact fun h => hk x (List.mem_cons_self x xs) (h ▸ rfl)
    rw [List.foldl_cons, List.foldl_cons]
    have hbump : bump ((k, m) :: acc) x = (k, m) :: bump acc x := by
      simp [bump, hx]
    rw [hbump, ih (fun y hy => hk y (List.mem_cons_of_mem x hy)) m (bump acc x)]

theorem tally_replicate (n k : Nat) :
    tally (List.replicate (n + 1) k) = [(k, n + 1)] := by
  rw [tally, List.replicate_succ, List.foldl_cons]
  show (List.replicate n k).foldl bump (bump [] k) = [(k, n + 1)]
  rw [show bump [] k = [(k, 1)] from rfl, foldl_bump_head n k 1 [], Nat.add_comm 1 n]

theorem tally_rep_append (a b k j : Nat) (hkj : k ≠ j) :
    tally (List.replicate (a + 1) k ++ List.replicate (b + 1) j) =
      [(k, a + 1), (j, b + 1)] := by
  rw [tally, List.foldl_append]
  rw [show (List.replicate (a + 1) k).foldl bump [] = tally (List.replicate (a + 1) k) from rfl,
    tally_replicate a k]
  rw [List.replicate_succ, List.foldl_cons]
  have hb : bump [(k, a + 1)] j = [(k, a + 1), (j, 1)] := by
    simp [bump, show (k == j) = false from beq_eq_false_iff_ne.mpr hkj]
  rw [hb, foldl_bump_frozen (List.replicate b j) k
    (fun x hx => (List.eq_of_mem_replicate hx) ▸ (Ne.symm hkj)) (a + 1) [(j, 1)],
    foldl_bump_head b j 1 [], Nat.add_comm 1 b]

/-- The element Python's stable descending sort followed by `[0]` selects:
the fold keeps the earliest element of maximal size, is a member of the
candidate list, and dominates every candidate. -/
theorem foldl_max_spec (fs : FileSystem) (rest : List FPath) :
    ∀ q : FPath,
      (rest.foldl (fun best p => if getsize fs best < getsize fs p then p else best) q
          ∈ q :: rest) ∧
      (∀ x ∈ q :: rest,
        getsize fs x ≤
          getsize fs
            (rest.foldl (fun best p => if getsize fs best < getsize fs p then p else best) q)) := by
  induction rest with
  | nil =>
    intro q
    constructor
    · simp [List.foldl]
    · intro x hx
      simp only [List.mem_singleton] at hx
      simp [List.foldl, hx]
  | cons r rs ih =>
    intro q
    simp only [List.foldl_cons]
    by_cases h : getsize fs q < getsize fs r
    · rw [if_pos h]
      refine ⟨List.mem_cons_of_mem q (ih r).1, ?_⟩
      intro x hx
      simp only [List.mem_cons] at hx
      rcases hx with hxq | hxr | hx
      · rw [hxq]; exact le_trans (le_of_lt h) ((ih r).2 r (List.mem_cons_self r rs))
      · rw [hxr]; exact (ih r).2 r (List.mem_cons_self r rs)
      · exact (ih r).2 x (List.mem_cons_of_mem r hx)
    · rw [if_neg h]
      constructor
      · have hm := (ih q).1
        simp only [List.mem_cons] at hm ⊢
        tauto
      · intro x hx
        simp only [List.mem_cons] at hx
        rcases hx with hxq | hxr | hx
        · rw [hxq]; exact (ih q).2 q (List.mem_cons_self q rs)
        · rw [hxr]; exact le_trans (le_of_not_lt h) ((ih q).2 q (List.mem_cons_self q rs))
        · exact (ih q).2 x (List.mem_cons_of_mem q hx)

theorem strictAttempt_yields (r : Except PyExc Table) (lbl : String) (t : Table)
    (hr : r = .ok t) (h : 0 < t.cols.length) : strictAttempt r lbl = .ok t := by
  subst hr
  simp [strictAttempt, Nat.pos_iff_ne_zero.mp h]

theorem strictAttempt_fails (r : Except PyExc Table) (lbl : String)
    (h : stratYields r = false) : ∃ e, strictAttempt r lbl = .error e := by
  cases r with
  | error e => exact ⟨e, rfl⟩
  | ok t =>
    simp only [stratYields, decide_eq_false_iff_not, Nat.pos_iff_ne_zero, not_not] at h
    exact ⟨.emptyDataError ("No columns parsed (attempt: " ++ lbl ++ ")"),
      by simp [strictAttempt, h]⟩

theorem afterStrict_s5_yields (path : String) (f : SrcFile) (e : PyExc) (t : Table)
    (h5 : f.s5 = .ok t) (hc : 0 < t.cols.length) : afterStrict path f e = .ok t := by
  simp [afterStrict, h5, hc]

theorem afterStrict_s6_yields (path : String) (f : SrcFile) (e : PyExc) (t : Table)
    (h5 : stratYields f.s5 = false) (h6 : f.s6 = .ok t) (hc : 0 < t.cols.length) :
    afterStrict path f e = .ok t := by
  cases hr5 : f.s5 with
  | error e5 => simp [afterStrict, hr5, h6, hc]
  | ok t5 =>
    rw [hr5] at h5
    simp only [stratYields, decide_eq_false_iff_not, Nat.pos_iff_ne_zero, not_not] at h5
    simp [afterStrict, hr5, h5, h6, hc]

theorem afterStrict_all_fail (path : String) (f : SrcFile) (e : PyExc)
    (h5 : stratYields f.s5 = false) (h6 : stratYields f.s6 = false) :
    ∃ e', afterStrict path f e = modalStage path f e' := by
  cases hr5 : f.s5 with
  | error e5 =>
    cases hr6 : f.s6 with
    | error e6 => exact ⟨e6, by simp [afterStrict, hr5, hr6]⟩
    | ok t6 =>
      rw [hr6] at h6
      simp only [stratYields, decide_eq_false_iff_not, Nat.pos_iff_ne_zero, not_not] at h6
      exact ⟨e5, by simp [afterStrict, hr5, hr6, h6]⟩
  | ok t5 =>
    rw [hr5] at h5
    simp only [stratYields, decide_eq_false_iff_not, Nat.pos_iff_ne_zero, not_not] at h5
    cases hr6 : f.s6 with
    | error e6 => exact ⟨e6, by simp [afterStrict, hr5, hr6, h5]⟩
    | ok t6 =>
      rw [hr6] at h6
      simp only [stratYields, decide_eq_false_iff_not, Nat.pos_iff_ne_zero, not_not] at h6
      exact ⟨e, by simp [afterStrict, hr5, hr6, h5, h6]⟩

theorem tryRead_all_errors (path : String) (f : SrcFile) (e1 e2 e3 e4 e5 e6 : PyExc)
    (h1 : f.s1 = .error e1) (h2 : f.s2 = .error e2) (h3 : f.s3 = .error e3)
    (h4 : f.s4 = .error e4) (h5 : f.s5 = .error e5) (h6 : f.s6 = .error e6) :
    _try_read path f = modalStage path f e6 := by
  simp [_try_read, afterStrict, strictAttempt, h1, h2, h3, h4, h5, h6]

theorem linesC1_length : linesC1.length = 2000 := by
  rw [linesC1, List.length_append, List.length_replicate, List.length_replicate]

theorem linesC1_take : linesC1.take 2000 = linesC1 :=
  List.take_of_length_le (le_of_eq linesC1_length)

theorem mapComma_C1 : linesC1.map (fieldCount ',') =
    List.replicate 1600 5 ++ List.replicate 400 4 := by
  rw [linesC1, List.map_append, List.map_replicate, List.map_replicate,
    show fieldCount ',' row5 = 5 from by decide,
    show fieldCount ',' row4 = 4 from by decide]

theorem mapSemi_C1 : linesC1.map (fieldCount ';') = List.replicate 2000 1 := by
  rw [linesC1, List.map_append, List.map_replicate, List.map_replicate,
    show fieldCount ';' row5 = 1 from by decide,
    show fieldCount ';' row4 = 1 from by decide,
    ← List.replicate_add]

theorem modalComma_C1 : modal_count linesC1 ',' = (5, 1600) := by
  have ht := tally_rep_append 1599 399 5 4 (by norm_num)
  norm_num at ht
  rw [modal_count, mapComma_C1, ht]
  decide

theorem modalSemi_C1 : modal_count linesC1 ';' = (1, 2000) := by
  have ht := tally_replicate 1999 1
  norm_num at ht
  rw [modal_count, mapSemi_C1, ht]
  decide

theorem chosenSep_C1 : chosenSep linesC1 = ';' := by
  rw [chosenSep, modalComma_C1, modalSemi_C1]
  norm_num

theorem chosenModalCols_C1 : chosenModalCols linesC1 = 1 := by
  rw [chosenModalCols, modalComma_C1, modalSemi_C1]
  norm_num

theorem cleanedRows_C1 : cleanedRows linesC1 linesC1 = linesC1 := by
  rw [cleanedRows]
  simp only [chosenSep_C1, chosenModalCols_C1]
  apply List.filter_eq_self.mpr
  intro ln hln
  rw [linesC1] at hln
  rcases List.mem_append.mp hln with h | h
  · rw [List.eq_of_mem_replicate h]; decide
  · rw [List.eq_of_mem_replicate h]; decide

theorem modalStage_C1 (path : String) (e : PyExc) :
    modalStage path fileC1 e = .ok tbl1 := by
  rw [modalStage]
  rw [show fileC1.lines = linesC1 from rfl, linesC1_length, linesC1_take]
  rw [if_neg (by norm_num : ¬ ((2000 : Nat) < 2000))]
  simp only [cleanedRows_C1, linesC1_length]
  rw [if_neg (by norm_num : ¬ ((2000 : Nat) == 0) = true)]
  rfl

/-! ### Claims -/

/-- **C1** (code bug, demonstrated): on the spec's own 80%/20% file — 2000
lines, 1600 with five comma-fields and 400 with four, no semicolons,
strategies 1–6 failing — the claim says the modal cleaner chooses the comma,
retains exactly the 1600 five-field lines and reports `kept = 0.8 · total`.
The code instead: under `';'` every sampled line has field count 1 with
frequency 2000, which beats the comma's modal frequency 1600, so `';'` is
chosen with modal column count 1, and the streaming pass keeps **all** 2000
lines (`kept = total`), the malformed 400 included.  (A second defect, shown
at C3: for files under 2000 lines the sampling comprehension loses
`sample_lines` entirely and the stage dies with a `NameError`.) -/
theorem c1_modal_cleaner_80_20_divergence :
    linesC1.length = 2000 ∧
    (linesC1.filter (fun ln => fieldCount ',' ln == 5)).length = 1600 ∧
    chosenSep (linesC1.take 2000) = ';' ∧
    chosenModalCols (linesC1.take 2000) = 1 ∧
    cleanedRows (linesC1.take 2000) linesC1 = linesC1 ∧
    _try_read "live_air_quality.csv" fileC1 = .ok tbl1 := by
  refine ⟨linesC1_length, ?_, ?_, ?_, ?_, ?_⟩
  · have h5 : (List.replicate 1600 row5).filter (fun ln => fieldCount ',' ln == 5) =
        List.replicate 1600 row5 :=
      List.filter_eq_self.mpr (fun a ha => by rw [List.eq_of_mem_replicate ha]; decide)
    have h4 : (List.replicate 400 row4).filter (fun ln => fieldCount ',' ln == 5) = [] := by
      rw [List.filter_eq_nil_iff]
      intro a ha
      rw [List.eq_of_mem_replicate ha]
      decide
    rw [linesC1, List.filter_append, h5, h4, List.length_append, List.length_replicate]
    rfl
  · rw [linesC1_take]; exact chosenSep_C1
  · rw [linesC1_take]; exact chosenModalCols_C1
  · rw [linesC1_take]; exact cleanedRows_C1
  · rw [tryRead_all_errors "live_air_quality.csv" fileC1 (.parseError "e1") (.parseError "e2")
      (.parseError "e3") (.parseError "e4") (.parseError "e5") (.parseError "e6")
      rfl rfl rfl rfl rfl rfl]
    exact modalStage_C1 "live_air_quality.csv" (.parseError "e6")

/-- **C3** (code bug, demonstrated): on a two-line file on which all six
pandas-backed strategies fail, `_try_read` does not raise the documented
tagged `RuntimeError` carrying the last strategy's exception: the sampling
comprehension of strategy 7 exhausts the file, `StopIteration` aborts the
assignment of `sample_lines`, and the subsequent `if sample_lines:` raises
an uncaught `NameError` — contradicting the function's own docstring
("Returns a pandas.DataFrame or raises RuntimeError with last exception"). -/
theorem c3_all_strategies_fail_nameError :
    stratYields fileC3.s1 = false ∧ stratYields fileC3.s2 = false ∧
    stratYields fileC3.s3 = false ∧ stratYields fileC3.s4 = false ∧
    stratYields fileC3.s5 = false ∧ stratYields fileC3.s6 = false ∧
    fileC3.lines.length = 2 ∧
    _try_read "live_air_quality.csv" fileC3 =
      .error (.exc (.nameError "name 'sample_lines' is not defined")) := by
  refine ⟨rfl, rfl, rfl, rfl, rfl, rfl, rfl, ?_⟩
  rw [tryRead_all_errors "live_air_quality.csv" fileC3 (.parseError "f1") (.parseError "f2")
    (.parseError "f3") (.parseError "f4") (.parseError "f5") (.parseError "f6")
    rfl rfl rfl rfl rfl rfl]
  rfl

/-- **C2**: `_try_read` attempts its strategies in the fixed documented order:
whenever every strategy before index `i` raises or yields zero columns and
strategy `i` yields a table with at least one column, the function returns
exactly that table (so no later strategy's outcome matters); and the modal
reconstruction of strategy 7 is reached exactly when all six pandas-backed
strategies have failed. -/
theorem c2_fallback_ladder_order :
    (∀ (path : String) (f : SrcFile) (i : Nat) (t : Table), i < 6 →
      (∀ j, j < i → stratYields ((stratList f).getD j stratDefault) = false) →
      (stratList f).getD i stratDefault = .ok t → 0 < t.cols.length →
      _try_read path f = .ok t) ∧
    (∀ (path : String) (f : SrcFile),
      (∀ j, j < 6 → stratYields ((stratList f).getD j stratDefault) = false) →
      ∃ e, _try_read path f = modalStage path f e) := by
  constructor
  · intro path f i t hi hprev hcur hc
    interval_cases i
    · simp only [stratList, List.getD_cons_zero] at hcur
      simp [_try_read, strictAttempt_yields f.s1 "utf-8 (default engine)" t hcur hc]
    · have hp0 := hprev 0 (by omega)
      simp only [stratList, List.getD_cons_zero, List.getD_cons_succ] at hp0 hcur
      obtain ⟨e1, he1⟩ := strictAttempt_fails f.s1 "utf-8 (default engine)" hp0
      simp [_try_read, he1, strictAttempt_yields f.s2 "utf-8-sig (BOM)" t hcur hc]
    · have hp0 := hprev 0 (by omega)
      have hp1 := hprev 1 (by omega)
      simp only [stratList, List.getD_cons_zero, List.getD_cons_succ] at hp0 hp1 hcur
      obtain ⟨e1, he1⟩ := strictAttempt_fails f.s1 "utf-8 (default engine)" hp0
      obtain ⟨e2, he2⟩ := strictAttempt_fails f.s2 "utf-8-sig (BOM)" hp1
      simp [_try_read, he1, he2, strictAttempt_yields f.s3 "latin1" t hcur hc]
    · have hp0 := hprev 0 (by omega)
      have hp1 := hprev 1 (by omega)
      have hp2 := hprev 2 (by omega)
      simp only [stratList, List.getD_cons_zero, List.getD_cons_succ] at hp0 hp1 hp2 hcur
      obtain ⟨e1, he1⟩ := strictAttempt_fails f.s1 "utf-8 (default engine)" hp0
      obtain ⟨e2, he2⟩ := strictAttempt_fails f.s2 "utf-8-sig (BOM)" hp1
      obtain ⟨e3, he3⟩ := strictAttempt_fails f.s3 "latin1" hp2
      simp [_try_read, he1, he2, he3,
        strictAttempt_yields f.s4 "python engine, auto-sep" t hcur hc]
    · have hp0 := hprev 0 (by omega)
      have hp1 := hprev 1 (by omega)
      have hp2 := hprev 2 (by omega)
      have hp3 := hprev 3 (by omega)
      simp only [stratList, List.getD_cons_zero, List.getD_cons_succ] at hp0 hp1 hp2 hp3 hcur
      obtain ⟨e1, he1⟩ := strictAttempt_fails f.s1 "utf-8 (default engine)" hp0
      obtain ⟨e2, he2⟩ := strictAttempt_fails f.s2 "utf-8-sig (BOM)" hp1
      obtain ⟨e3, he3⟩ := strictAttempt_fails f.s3 "latin1" hp2
      obtain ⟨e4, he4⟩ := strictAttempt_fails f.s4 "python engine, auto-sep" hp3
      simp [_try_read, he1, he2, he3, he4, afterStrict_s5_yields path f e4 t hcur hc]
    · have hp0 := hprev 0 (by omega)
      have hp1 := hprev 1 (by omega)
      have hp2 := hprev 2 (by omega)
      have hp3 := hprev 3 (by omega)
      have hp4 := hprev 4 (by omega)
      simp only [stratList, List.getD_cons_zero, List.getD_cons_succ] at hp0 hp1 hp2 hp3 hp4 hcur
      obtain ⟨e1, he1⟩ := strictAttempt_fails f.s1 "utf-8 (default engine)" hp0
      obtain ⟨e2, he2⟩ := strictAttempt_fails f.s2 "utf-8-sig (BOM)" hp1
      obtain ⟨e3, he3⟩ := strictAttempt_fails f.s3 "latin1" hp2
      obtain ⟨e4, he4⟩ := strictAttempt_fails f.s4 "python engine, auto-sep" hp3
      simp [_try_read, he1, he2, he3, he4, afterStrict_s6_yields path f e4 t hp4 hcur hc]
  · intro path f hall
    have hp0 := hall 0 (by omega)
    have hp1 := hall 1 (by omega)
    have hp2 := hall 2 (by omega)
    have hp3 := hall 3 (by omega)
    have hp4 := hall 4 (by omega)
    have hp5 := hall 5 (by omega)
    simp only [stratList, List.getD_cons_zero, List.getD_cons_succ] at hp0 hp1 hp2 hp3 hp4 hp5
    obtain ⟨e1, he1⟩ := strictAttempt_fails f.s1 "utf-8 (default engine)" hp0
    obtain ⟨e2, he2⟩ := strictAttempt_fails f.s2 "utf-8-sig (BOM)" hp1
    obtain ⟨e3, he3⟩ := strictAttempt_fails f.s3 "latin1" hp2
    obtain ⟨e4, he4⟩ := strictAttempt_fails f.s4 "python engine, auto-sep" hp3
    obtain ⟨e', he'⟩ := afterStrict_all_fail path f e4 hp4 hp5
    exact ⟨e', by simp [_try_read, he1, he2, he3, he4, he']⟩

/-- Witness for C2: a file whose strategy 1 fails while strategy 2 parses
`tblC8w`; the ladder returns that table. -/
theorem c2_fallback_ladder_order_witness :
    _try_read "w.csv" fileC2 = .ok tblC8w :=
  c2_fallback_ladder_order.1 "w.csv" fileC2 1 tblC8w (by omega)
    (by decide) rfl (by decide)

/-- **C4**: column resolution first trims every header, then applies its
rules in the fixed order — exact alias match, substring heuristics, unique
numeric column, generic names `value` then `measurement` — and when no rule
resolves, fails with a `KeyError` whose message lists the available column
names instead of silently picking a column.  The header `PM2.5 (ug/m3)`
escapes the alias list but is caught by the substring heuristics. -/
theorem c4_column_resolution_rules :
    (∀ t, resolveColumn t = selectTargetColumn (strippedTable t)) ∧
    (∀ t c, aliasStage (headersOf t) = some c → selectTargetColumn t = .ok c) ∧
    (∀ t c, aliasStage (headersOf t) = none → substrStage (headersOf t) = some c →
      selectTargetColumn t = .ok c) ∧
    (∀ t c, aliasStage (headersOf t) = none → substrStage (headersOf t) = none →
      numericStage t = some c → selectTargetColumn t = .ok c) ∧
    (∀ t c, aliasStage (headersOf t) = none → substrStage (headersOf t) = none →
      numericStage t = none → genericStage (headersOf t) = some c →
      selectTargetColumn t = .ok c) ∧
    (∀ t, aliasStage (headersOf t) = none → substrStage (headersOf t) = none →
      numericStage t = none → genericStage (headersOf t) = none →
      selectTargetColumn t = .error (.exc (.keyError (noColumnMsg (headersOf t))))) ∧
    (∀ H c, colMapGet H "value" = some c → genericStage H = some c) ∧
    (∀ H c, colMapGet H "value" = none → colMapGet H "measurement" = some c →
      genericStage H = some c) ∧
    (aliasStage ["timestamp", "PM2.5 (ug/m3)"] = none ∧
      substrStage ["timestamp", "PM2.5 (ug/m3)"] = some "PM2.5 (ug/m3)" ∧
      resolveColumn ⟨[⟨"  timestamp ", false, [none]⟩, ⟨"PM2.5 (ug/m3)", true, [some 7]⟩]⟩ =
        .ok "PM2.5 (ug/m3)") := by
  refine ⟨fun _ => rfl, ?_, ?_, ?_, ?_, ?_, ?_, ?_, by decide, by decide, by rfl⟩
  · intro t c h1
    simp [selectTargetColumn, h1]
  · intro t c h1 h2
    simp [selectTargetColumn, h1, h2]
  · intro t c h1 h2 h3
    simp [selectTargetColumn, h1, h2, h3]
  · intro t c h1 h2 h3 h4
    simp [selectTargetColumn, h1, h2, h3, h4]
  · intro t h1 h2 h3 h4
    simp [selectTargetColumn, h1, h2, h3, h4]
  · intro H c h1
    simp [genericStage, h1]
  · intro H c h1 h2
    simp [genericStage, h1, h2]

/-- Witness for C4: on a table with headers `pm25`, `pm2_5`, the exact-alias
rule fires and resolution returns `pm25`. -/
theorem c4_column_resolution_rules_witness :
    selectTargetColumn tblC8 = .ok "pm25" :=
  c4_column_resolution_rules.2.1 tblC8 "pm25" (by decide)

/-- **C5**: the final stage of `load_data` drops exactly the cells that fail
numeric coercion (substituting nothing), raises the tagged empty-result
`ValueError` when the coerced series is empty — in particular on a column of
only non-numeric fields — and consequently every successful return of
`load_data` carries a non-empty series. -/
theorem c5_coercion_nonempty :
    (∀ fs p r, load_data fs p = .ok r → r ≠ []) ∧
    (∀ c r, coerceNumeric c = .ok r → r = c.cells.filterMap id) ∧
    (∀ c : Column, (∀ x ∈ c.cells, x = none) →
      coerceNumeric c = .error (.exc (.valueError
        ("No numeric values found in detected pm25 column '" ++ c.name ++
          "' after coercion.")))) := by
  refine ⟨?_, ?_, ?_⟩
  · intro fs p r h
    have key : ∀ c, coerceNumeric c = .ok r → r ≠ [] := by
      intro c hc
      rw [coerceNumeric] at hc
      split at hc
      · simp at hc
      · next hne =>
        injection hc with hc'
        subst hc'
        simpa using hne
    have keyPath : ∀ q, loadFromPath fs q = .ok r → r ≠ [] := by
      intro q hq
      rw [loadFromPath] at hq
      split at hq
      · split at hq
        · simp at hq
        · split at hq
          · simp at hq
          · split at hq
            · simp at hq
            · split at hq
              · exact key _ hq
              · simp at hq
      · simp at hq
    rw [load_data.eq_def] at h
    split at h
    · exact keyPath _ h
    · split at h
      · simp at h
      · exact keyPath _ h
  · intro c r hc
    rw [coerceNumeric] at hc
    split at hc
    · simp at hc
    · injection hc with hc'
      exact hc'.symm
  · intro c hall
    have hnil : c.cells.filterMap id = [] := by
      rw [List.filterMap_eq_nil_iff]
      intro a ha
      exact hall a ha
    simp [coerceNumeric, hnil]

/-- Witness for C5: a successful concrete load returns the non-empty series
`[12]`. -/
theorem c5_coercion_nonempty_witness : ([(12 : Rat)] : List Rat) ≠ [] :=
  c5_coercion_nonempty.1 fsW (some pW) [12] (by rfl)

/-- **C6**: `find_best_csv` prefers the preferred file when present and
non-empty, then the fixed fallback `DATA_FILE`, then the largest non-empty
`.csv` file of the directory; it raises the tagged not-found error when no
`.csv` candidate exists in the directory and the tagged all-empty error when
every candidate is zero bytes. -/
theorem c6_find_best_csv_selection :
    ∀ (fs : FileSystem) (base pref : String),
      (fsExists fs ⟨base, pref⟩ = true ∧ 0 < getsize fs ⟨base, pref⟩ →
        find_best_csv fs base pref = .ok ⟨base, pref⟩) ∧
      (¬(fsExists fs ⟨base, pref⟩ = true ∧ 0 < getsize fs ⟨base, pref⟩) →
        fsExists fs DATA_FILE = true ∧ 0 < getsize fs DATA_FILE →
        find_best_csv fs base pref = .ok DATA_FILE) ∧
      (¬(fsExists fs ⟨base, pref⟩ = true ∧ 0 < getsize fs ⟨base, pref⟩) →
        ¬(fsExists fs DATA_FILE = true ∧ 0 < getsize fs DATA_FILE) →
        globCsv fs base = [] →
        find_best_csv fs base pref =
          .error (.exc (.fileNotFoundError ("No CSV files found in " ++ base)))) ∧
      (¬(fsExists fs ⟨base, pref⟩ = true ∧ 0 < getsize fs ⟨base, pref⟩) →
        ¬(fsExists fs DATA_FILE = true ∧ 0 < getsize fs DATA_FILE) →
        globCsv fs base ≠ [] → (∀ q ∈ globCsv fs base, getsize fs q = 0) →
        find_best_csv fs base pref =
          .error (.exc (.valueError ("All CSV files in " ++ base ++ " are empty.")))) ∧
      (¬(fsExists fs ⟨base, pref⟩ = true ∧ 0 < getsize fs ⟨base, pref⟩) →
        ¬(fsExists fs DATA_FILE = true ∧ 0 < getsize fs DATA_FILE) →
        ∀ q0 ∈ globCsv fs base, 0 < getsize fs q0 →
        ∃ m, find_best_csv fs base pref = .ok m ∧ m ∈ globCsv fs base ∧
          0 < getsize fs m ∧ ∀ q ∈ globCsv fs base, getsize fs q ≤ getsize fs m) := by
  intro fs base pref
  have condP : ∀ (p : FPath), (fsExists fs p && decide (0 < getsize fs p)) = true ↔
      (fsExists fs p = true ∧ 0 < getsize fs p) := by
    intro p
    simp [Bool.and_eq_true]
  refine ⟨?_, ?_, ?_, ?_, ?_⟩
  · intro h
    rw [find_best_csv, if_pos ((condP _).mpr h)]
  · intro hn hd
    rw [find_best_csv, if_neg (fun hc => hn ((condP _).mp hc)),
      if_pos ((condP _).mpr hd)]
  · intro hn hd hglob
    rw [find_best_csv, if_neg (fun hc => hn ((condP _).mp hc)),
      if_neg (fun hc => hd ((condP _).mp hc)), globStage, if_pos hglob]
  · intro hn hd hglob hzero
    have hfilter : (globCsv fs base).filter (fun p => decide (0 < getsize fs p)) = [] := by
      rw [List.filter_eq_nil_iff]
      intro q hq
      simp [hzero q hq]
    rw [find_best_csv, if_neg (fun hc => hn ((condP _).mp hc)),
      if_neg (fun hc => hd ((condP _).mp hc)), globStage, if_neg hglob, hfilter]
  · intro hn hd q0 hq0 hq0pos
    have hq0f : q0 ∈ (globCsv fs base).filter (fun p => decide (0 < getsize fs p)) :=
      List.mem_filter.mpr ⟨hq0, by simp [hq0pos]⟩
    have hglob : globCsv fs base ≠ [] := by
      intro hc
      rw [hc] at hq0
      exact absurd hq0 (List.not_mem_nil q0)
    cases hf : (globCsv fs base).filter (fun p => decide (0 < getsize fs p)) with
    | nil => rw [hf] at hq0f; exact absurd hq0f (List.not_mem_nil q0)
    | cons q rest =>
      obtain ⟨hmem, hbound⟩ := foldl_max_spec fs rest q
      rw [← hf] at hmem hbound
      have hmglob : (rest.foldl
          (fun best p => if getsize fs best < getsize fs p then p else best) q) ∈
          globCsv fs base := (List.mem_filter.mp hmem).1
      have hmpos : 0 < getsize fs (rest.foldl
          (fun best p => if getsize fs best < getsize fs p then p else best) q) := by
        have := (List.mem_filter.mp hmem).2
        simpa using this
      refine ⟨_, ?_, hmglob, hmpos, ?_⟩
      · rw [find_best_csv, if_neg (fun hc => hn ((condP _).mp hc)),
          if_neg (fun hc => hd ((condP _).mp hc)), globStage, if_neg hglob, hf]
      · intro q' hq'
        by_cases hq'pos : 0 < getsize fs q'
        · exact hbound q' (List.mem_filter.mpr ⟨hq', by simp [hq'pos]⟩)
        · omega

/-- Witness for C6: in a directory of three `.csv` files of sizes 2, 9, 9
with no preferred and no fallback file, the selected file is `b.csv` — the
earliest of maximal size — and it dominates every candidate. -/
theorem c6_find_best_csv_selection_witness :
    ∃ m, find_best_csv fsC6 "/data" "live_air_quality.csv" = .ok m ∧
      m ∈ globCsv fsC6 "/data" ∧ 0 < getsize fsC6 m ∧
      ∀ q ∈ globCsv fsC6 "/data", getsize fsC6 q ≤ getsize fsC6 m :=
  ((c6_find_best_csv_selection fsC6 "/data" "live_air_quality.csv").2.2.2.2)
    (by decide) (by decide) ⟨"/data", "a.csv"⟩ (by decide) (by decide)

/-- **C7**: on a missing path the loader fails with the tagged
file-not-found error, and on an existing zero-byte path with the tagged
empty-file error — before any parse strategy runs, as witnessed by the
result being independent of the file contents (`c₂` arbitrary); and
`find_best_csv` never hands the loader an empty file. -/
theorem c7_empty_input_tagged :
    ∀ (entries : List (FPath × Nat)) (c₁ c₂ : FPath → SrcFile) (p : FPath),
      (fsExists ⟨entries, c₁⟩ p = false →
        load_data ⟨entries, c₁⟩ (some p) =
          .error (.exc (.fileNotFoundError ("Data file not found: " ++ pathStr p)))) ∧
      (fsExists ⟨entries, c₁⟩ p = true → getsize ⟨entries, c₁⟩ p = 0 →
        load_data ⟨entries, c₁⟩ (some p) =
          .error (.exc (.valueError ("Data file exists but is empty: " ++ pathStr p))) ∧
        load_data ⟨entries, c₁⟩ (some p) = load_data ⟨entries, c₂⟩ (some p)) ∧
      (∀ (base pref : String) (q : FPath),
        find_best_csv ⟨entries, c₁⟩ base pref = .ok q →
        0 < getsize ⟨entries, c₁⟩ q) := by
  intro entries c₁ c₂ p
  have hsame : ∀ q, fsExists (⟨entries, c₂⟩ : FileSystem) q = fsExists ⟨entries, c₁⟩ q :=
    fun _ => rfl
  have hsz : ∀ q, getsize (⟨entries, c₂⟩ : FileSystem) q = getsize ⟨entries, c₁⟩ q :=
    fun _ => rfl
  refine ⟨?_, ?_, ?_⟩
  · intro hne
    show loadFromPath ⟨entries, c₁⟩ p = _
    rw [loadFromPath, if_neg (by rw [hne]; exact Bool.false_ne_true)]
  · intro hex hzero
    have h1 : load_data (⟨entries, c₁⟩ : FileSystem) (some p) =
        .error (.exc (.valueError ("Data file exists but is empty: " ++ pathStr p))) := by
      show loadFromPath ⟨entries, c₁⟩ p = _
      rw [loadFromPath, if_pos hex, if_pos (by rw [hzero]; rfl)]
    have h2 : load_data (⟨entries, c₂⟩ : FileSystem) (some p) =
        .error (.exc (.valueError ("Data file exists but is empty: " ++ pathStr p))) := by
      show loadFromPath ⟨entries, c₂⟩ p = _
      rw [loadFromPath, if_pos ((hsame p).trans hex),
        if_pos (by rw [hsz p, hzero]; rfl)]
    exact ⟨h1, h1.trans h2.symm⟩
  · intro base pref q h
    rw [find_best_csv] at h
    split at h
    · next hc =>
      simp only [Bool.and_eq_true, decide_eq_true_eq] at hc
      injection h with h'
      rw [← h']
      exact hc.2
    · split at h
      · next hc =>
        simp only [Bool.and_eq_true, decide_eq_true_eq] at hc
        injection h with h'
        rw [← h']
        exact hc.2
      · rw [globStage] at h
        split at h
        · simp at h
        · split at h
          · simp at h
          · next q' rest heq =>
            injection h with h'
            obtain ⟨hmem, _⟩ := foldl_max_spec ⟨entries, c₁⟩ rest q'
            rw [← heq] at hmem
            have := (List.mem_filter.mp hmem).2
            rw [h'] at this
            simpa using this

/-- Witness for C7: an existing zero-byte file yields the tagged empty-file
error, independently of file content. -/
theorem c7_empty_input_tagged_witness :
    load_data ⟨[(pW, 0)], fun _ => dummyFile⟩ (some pW) =
      .error (.exc (.valueError ("Data file exists but is empty: " ++ pathStr pW))) ∧
    load_data ⟨[(pW, 0)], fun _ => dummyFile⟩ (some pW) =
      load_data ⟨[(pW, 0)], fun _ => fileC8w⟩ (some pW) :=
  (c7_empty_input_tagged [(pW, 0)] (fun _ => dummyFile) (fun _ => fileC8w) pW).2.1
    (by decide) (by decide)

/-- **C8** (counterexample to the claim as stated): `fileC8` is a well-formed
comma-delimited UTF-8 file — strategy 1 parses it into `tblC8` — containing a
column named exactly `pm2_5`; yet column resolution returns the *other*
column `pm25`, because the alias list tries `pm25` before `pm2_5`.  So "the
resolution selects that column" fails. -/
theorem c8_pm25_shadows_pm2_5 :
    _try_read "good.csv" fileC8 = .ok tblC8 ∧
    "pm2_5" ∈ headersOf (strippedTable tblC8) ∧
    resolveColumn tblC8 = .ok "pm25" ∧
    ("pm25" : String) ≠ "pm2_5" := by
  exact ⟨rfl, by decide, rfl, by decide⟩

/-- **C8** (amended): for a well-formed comma-delimited UTF-8 file — one on
which strategy 1 yields a table with at least one column — containing a
column whose stripped name lower-cases to `pm2_5`, `parseTable` succeeds on
strategy 1 without any fallback, and, provided no column matches the
earlier aliases `pm25` or `pm_25`, resolution selects the `pm2_5` column via
the exact-alias rule. -/
theorem c8_strategy1_alias_resolution :
    ∀ (path : String) (f : SrcFile) (t : Table) (c : String),
      f.s1 = .ok t → 0 < t.cols.length →
      colMapGet (headersOf (strippedTable t)) "pm25" = none →
      colMapGet (headersOf (strippedTable t)) "pm_25" = none →
      colMapGet (headersOf (strippedTable t)) "pm2_5" = some c →
      _try_read path f = .ok t ∧ resolveColumn t = .ok c := by
  intro path f t c h1 hc hm1 hm2 hm3
  constructor
  · simp [_try_read, strictAttempt_yields f.s1 "utf-8 (default engine)" t h1 hc]
  · have halias : aliasStage (headersOf (strippedTable t)) = some c := by
      rw [aliasStage, candidates]
      simp only [List.findSome?_cons,
        show pyLower "pm25" = "pm25" from by decide,
        show pyLower "pm_25" = "pm_25" from by decide,
        show pyLower "pm2_5" = "pm2_5" from by decide, hm1, hm2, hm3]
    rw [resolveColumn, selectTargetColumn, halias]

/-- Witness for the amended C8: a file whose stripped headers are
`timestamp`, `pm2_5` resolves to `pm2_5` on strategy 1. -/
theorem c8_strategy1_alias_resolution_witness :
    _try_read "w2.csv" fileC8w = .ok tblC8w ∧ resolveColumn tblC8w = .ok "pm2_5" :=
  c8_strategy1_alias_resolution "w2.csv" fileC8w tblC8w "pm2_5" rfl
    (by decide) (by decide) (by decide) (by decide)

/-- **C9**: the loader is deterministic and stateless: two sequential
invocations on the same unchanged filesystem return identical series (the
embedding threads no state between calls, matching a source whose module
level holds only constants), and the result depends on nothing beyond the
directory listing and the file contents. -/
theorem c9_loader_deterministic_stateless :
    (∀ fs p, loadDataTwice fs p = (load_data fs p, load_data fs p) ∧
      (loadDataTwice fs p).1 = (loadDataTwice fs p).2) ∧
    (∀ (fs₁ fs₂ : FileSystem) (p : Option FPath), fs₁.entries = fs₂.entries →
      fs₁.content = fs₂.content → load_data fs₁ p = load_data fs₂ p) := by
  refine ⟨fun fs p => ⟨rfl, rfl⟩, ?_⟩
  intro fs₁ fs₂ p he hc
  cases fs₁
  cases fs₂
  cases he
  cases hc
  rfl

/-- Witness for C9: applying the statelessness part at a concrete
filesystem. -/
theorem c9_loader_deterministic_stateless_witness :
    load_data fsW (some pW) = load_data ⟨fsW.entries, fsW.content⟩ (some pW) :=
  c9_loader_deterministic_stateless.2 fsW ⟨fsW.entries, fsW.content⟩ (some pW) rfl rfl

/-- **C10**: the fallback of step (b) is the module-level constant
`DATA_FILE = BASE_DIR/air_quality_data.csv`, fixed in the module's own
directory: a call with any `base_dir` still checks exactly that path in
step (b), while step (a) checks `base_dir/preferred` and step (c) globs
`base_dir`. -/
theorem c10_fallback_uses_module_dir :
    DATA_FILE = ⟨BASE_DIR, "air_quality_data.csv"⟩ ∧
    (∀ base : String, base ≠ BASE_DIR → DATA_FILE.dir ≠ base) ∧
    (∀ (fs : FileSystem) (base pref : String),
      ¬(fsExists fs ⟨base, pref⟩ = true ∧ 0 < getsize fs ⟨base, pref⟩) →
      fsExists fs DATA_FILE = true → 0 < getsize fs DATA_FILE →
      find_best_csv fs base pref = .ok DATA_FILE) ∧
    (∀ (fs : FileSystem) (base pref : String),
      fsExists fs ⟨base, pref⟩ = true → 0 < getsize fs ⟨base, pref⟩ →
      find_best_csv fs base pref = .ok ⟨base, pref⟩) ∧
    (∀ (fs : FileSystem) (base pref : String),
      ¬(fsExists fs ⟨base, pref⟩ = true ∧ 0 < getsize fs ⟨base, pref⟩) →
      ¬(fsExists fs DATA_FILE = true ∧ 0 < getsize fs DATA_FILE) →
      find_best_csv fs base pref = globStage fs base) := by
  refine ⟨rfl, ?_, ?_, ?_, ?_⟩
  · intro base hb
    simpa [DATA_FILE] using fun h => hb h.symm
  · intro fs base pref hn he hs
    rw [find_best_csv,
      if_neg (fun hc => hn (by simpa [Bool.and_eq_true] using hc)),
      if_pos (by simp [Bool.and_eq_true, he, hs])]
  · intro fs base pref he hs
    rw [find_best_csv, if_pos (by simp [Bool.and_eq_true, he, hs])]
  · intro fs base pref hn hd
    rw [find_best_csv,
      if_neg (fun hc => hn (by simpa [Bool.and_eq_true] using hc)),
      if_neg (fun hc => hd (by simpa [Bool.and_eq_true] using hc))]

/-- Witness for C10: with `base_dir = "/data"` (not the module directory),
no preferred file there, and a non-empty `DATA_FILE` in the module
directory, the fallback that is returned is the module directory's file. -/
theorem c10_fallback_uses_module_dir_witness :
    find_best_csv fsC10 "/data" "live_air_quality.csv" = .ok DATA_FILE ∧
    DATA_FILE.dir ≠ "/data" :=
  ⟨c10_fallback_uses_module_dir.2.2.1 fsC10 "/data" "live_air_quality.csv"
      (by decide) (by decide) (by decide),
    c10_fallback_uses_module_dir.2.1 "/data" (by decide)⟩

end DeepAir
